import Mathlib

/-!
Shallow embedding of `src/models/turbine_models/custom_models/sd_inference/unet.py`
(SHARK-Turbine, stable-diffusion UNet export script).

A tensor is modelled along its batch dimension as a list of integer slices;
`torch.cat([sample] * 2)` is list append, `Tensor.chunk(2)` is the take/drop
split at the ceiling of half the length (torch chunks have size ceil(n/2)),
and the classifier-free-guidance combination is an elementwise `zipWith`.

`export_unet_model` is embedded as a pure state-passing function: the shared
`DEFAULT_DECOMPOSITIONS` list object is the explicit state (the Python code
aliases it and `extend`s it in place), and all file/compile/upload side
effects are recorded in the returned `ExportResult`.
-/

namespace SDUnet

/-- A tensor viewed along its batch dimension: one integer per batch slice. -/
abbrev Tensor1 := List Int

/-- `torch.cat([sample] * 2)`: duplicate the batch dimension. -/
def torch_cat2 (sample : Tensor1) : Tensor1 := sample ++ sample

/-- `Tensor.chunk(2)`: split into two chunks, the first of size ceil(n/2). -/
def chunk2 (xs : Tensor1) : Tensor1 × Tensor1 :=
  (xs.take ((xs.length + 1) / 2), xs.drop ((xs.length + 1) / 2))

/-- `uncond + guidance_scale * (text - uncond)`, elementwise over the batch. -/
def cfgCombine (guidance_scale : Int) (uncond text : Tensor1) : Tensor1 :=
  List.zipWith (fun u c => u + guidance_scale * (c - u)) uncond text

/-- `UnetModel.forward` from the source: concatenate two copies of the sample
along the batch dimension, run the underlying network (`self.unet.forward`,
abstracted as the function argument `unet`) once on the duplicated batch,
chunk the output in two, and combine the halves with the guidance scale. -/
def UnetModel.forward (unet : Tensor1 → Int → Tensor1 → Tensor1)
    (sample : Tensor1) (timestep : Int) (encoder_hidden_states : Tensor1)
    (guidance_scale : Int) : Tensor1 :=
  let samples := torch_cat2 sample
  let unet_out := unet samples timestep encoder_hidden_states
  let p := chunk2 unet_out
  cfgCombine guidance_scale p.1 p.2

/-- Operators appearing in a decomposition policy.  The two attention-kernel
decompositions added by `export_unet_model` are named; the contents of the
(externally defined) default set are abstracted as `other n`. -/
inductive AtenOp
  | sdpa_flash_for_cpu
  | sdpa_flash_default
  | other (n : Nat)
deriving DecidableEq

/-- The two attention-kernel decompositions appended when `decomp_attn` is set:
`aten._scaled_dot_product_flash_attention_for_cpu` and
`aten._scaled_dot_product_flash_attention.default`. -/
def attnDecomps : List AtenOp := [AtenOp.sdpa_flash_for_cpu, AtenOp.sdpa_flash_default]

/-- The configuration attributes of the underlying network that the export
driver reads (`unet_model.unet.config.*`). -/
structure UnetConfig where
  in_channels : Nat
  layers_per_block : Nat
  cross_attention_dim : Nat
deriving DecidableEq

/-- The wrapped model instance: the underlying network's configuration and its
named learned parameters. -/
structure UnetModelArtifact where
  config : UnetConfig
  weights : List (String × Int)
deriving DecidableEq

/-- `UnetModel.__init__` from the source: it accepts `hf_auth_token` but calls
`UNet2DConditionModel.from_pretrained(hf_model_name, subfolder="unet")`
without it, so the token is ignored.  The pretrained loader itself belongs to
the external `diffusers` library and is abstracted as the argument
`from_pretrained`. -/
def UnetModel.load (from_pretrained : String → UnetModelArtifact)
    (hf_model_name : String) (hf_auth_token : Option String) : UnetModelArtifact :=
  from_pretrained hf_model_name

/-- The keyword arguments of `export_unet_model`, with the source's default
values. -/
structure ExportArgs where
  hf_model_name : String
  batch_size : Nat
  height : Nat
  width : Nat
  precision : String := "fp32"
  max_length : Nat := 77
  hf_auth_token : Option String := none
  compile_to : String := "torch"
  external_weights : Option String := none
  external_weight_path : Option String := none
  device : Option String := none
  target_triple : Option String := none
  max_alloc : Option String := none
  upload_ir : Bool := false
  decomp_attn : Bool := true
deriving DecidableEq

/-- Modelled from the spec: `utils.save_external_weights` lives in
`turbine_models/custom_models/sd_inference/utils.py`, which is part of this
repository but not under `src/`.  Per spec section 4.3 it populates the
weight-name mapping when an external storage format is requested, writes the
weights file when a destination path is also given, and leaves the mapping
untouched and writes nothing when the external-weights flag is unset.
Returns the new mapping and the path of the weights file written, if any. -/
def save_external_weights (mapper : List (String × String))
    (model : UnetModelArtifact) (external_weights : Option String)
    (external_weight_path : Option String) :
    List (String × String) × Option String :=
  match external_weights with
  | none => (mapper, none)
  | some _fmt =>
      (mapper ++ model.weights.map (fun p => (p.1, p.1)), external_weight_path)

/-- Replace every occurrence of a single character (used for the Python
single-character `str.replace` calls, where replace is a character map). -/
def replaceSep (sep repl : Char) (s : String) : String :=
  String.mk (s.data.map (fun c => if c = sep then repl else c))

/-- One decimal digit as a character. -/
def digitChar (n : Nat) : Char :=
  match n with
  | 0 => '0' | 1 => '1' | 2 => '2' | 3 => '3' | 4 => '4'
  | 5 => '5' | 6 => '6' | 7 => '7' | 8 => '8' | _ => '9'

/-- Decimal digits of `n`, with explicit fuel for structural recursion. -/
def natDigitsAux : Nat → Nat → List Char
  | 0, _ => []
  | _ + 1, 0 => []
  | fuel + 1, n => natDigitsAux fuel (n / 10) ++ [digitChar (n % 10)]

/-- Decimal rendering of a natural number. -/
def natStr (n : Nat) : String :=
  if n = 0 then "0" else String.mk (natDigitsAux n n)

/-- Modelled from the spec: `utils.create_safe_name` is part of this repository
but not under `src/`.  Per spec section 6 it derives a filesystem-safe name
from the model identifier; modelled as replacing path separators and appending
the suffix. -/
def create_safe_name (hf_model_name : String) (suffix : String) : String :=
  replaceSep '/' '_' hf_model_name ++ suffix

/-- Modelled from the spec: `turbine_tank.uploadToBlobStorage` is part of this
repository but not under `src/`.  Per spec section 4.5 it transmits the file
to remote object storage and returns an identifier for the uploaded blob;
modelled as returning the destination blob name. -/
def uploadToBlobStorage (local_path : String) (dest : String) : String := dest

/-- Render a decomposition policy as text (used only inside the module text). -/
def AtenOp.render : AtenOp → String
  | AtenOp.sdpa_flash_for_cpu => "sdpa_cpu"
  | AtenOp.sdpa_flash_default => "sdpa_def"
  | AtenOp.other n => "op" ++ natStr n

/-- Modelled from the spec: the graph-capture and serialization step
(`CompiledModule` from `shark_turbine.aot`, part of this repository but not
under `src/`).  Per spec sections 3 and 8 the textual module is an immutable
artifact and a deterministic function of the weights, placeholder shapes,
dtype, decomposition policy, parameter externalization, weight-name mapping
and import stage; modelled as a concrete rendering of exactly those inputs. -/
def capture_module_str (model : UnetModelArtifact) (dtype_fp16 : Bool)
    (samplePh : Nat × Nat × Nat × Nat) (ehsPh : Nat × Nat × Nat)
    (decomps : List AtenOp) (params_external : Bool)
    (mapper : List (String × String)) (import_to : String) : String :=
  "module " ++ natStr samplePh.1 ++ "x" ++ natStr samplePh.2.1 ++ "x"
    ++ natStr samplePh.2.2.1 ++ "x" ++ natStr samplePh.2.2.2 ++ " "
    ++ natStr ehsPh.1 ++ "x" ++ natStr ehsPh.2.1 ++ "x" ++ natStr ehsPh.2.2
    ++ " " ++ (if dtype_fp16 then "f16" else "f32")
    ++ " " ++ String.intercalate "," (decomps.map AtenOp.render)
    ++ " " ++ (if params_external then "ext" else "emb")
    ++ " " ++ String.intercalate "," (mapper.map (fun p => p.1 ++ ">" ++ p.2))
    ++ " " ++ String.intercalate ","
        (model.weights.map (fun p => p.1 ++ "=" ++ natStr p.2.natAbs))
    ++ " " ++ import_to

/-- Everything `export_unet_model` produces in one call: the returned value,
the textual module, the declared placeholder shapes, the decomposition policy
it passed to graph capture, the weight-name mapping, and a record of each
side effect (weights file, mlir file, backend compile step, upload). -/
structure ExportResult where
  ret : Option String
  module_str : String
  samplePh : Nat × Nat × Nat × Nat
  ehsPh : Nat × Nat × Nat
  decomp_list : List AtenOp
  mapper : List (String × String)
  params_external : Bool
  weights_file : Option String
  mlir_file : Option String
  vmfb_compiled : Bool
  uploaded_blob : Option String
deriving DecidableEq

/-- `export_unet_model` from the source, as a pure state-passing function.
The first argument is the current contents of the shared
`DEFAULT_DECOMPOSITIONS` list object; the Python statement
`decomp_list = DEFAULT_DECOMPOSITIONS` aliases that object and
`decomp_list.extend([...])` mutates it in place, so the function returns the
(possibly extended) shared list alongside the result. -/
def export_unet_model (default_decomps : List AtenOp)
    (unet_model : UnetModelArtifact) (a : ExportArgs) :
    ExportResult × List AtenOp :=
  let mapper0 : List (String × String) := []
  let decomp_list :=
    if a.decomp_attn then default_decomps ++ attnDecomps else default_decomps
  let dtype_fp16 := a.precision = "fp16"
  let mw := save_external_weights mapper0 unet_model a.external_weights
      a.external_weight_path
  let mapper := mw.1
  let weights_file := mw.2
  let ehsPh := (unet_model.config.layers_per_block, a.max_length,
      unet_model.config.cross_attention_dim)
  let samplePh := (a.batch_size, unet_model.config.in_channels,
      a.height / 8, a.width / 8)
  let params_external := a.external_weights.isSome
  let import_to := if a.compile_to = "linalg" then "INPUT" else "IMPORT"
  let module_str := capture_module_str unet_model dtype_fp16 samplePh ehsPh
      decomp_list params_external mapper import_to
  let safe_name := create_safe_name a.hf_model_name "-unet"
  let mlir_file := if a.upload_ir then some (safe_name ++ ".mlir") else none
  let model_name_upload := replaceSep '/' '-' a.hf_model_name ++ "_unet"
  let uploaded_blob :=
    if a.upload_ir then
      some (uploadToBlobStorage (safe_name ++ ".mlir")
        (model_name_upload ++ "/" ++ model_name_upload ++ ".mlir"))
    else none
  let base : ExportResult :=
    { ret := none, module_str := module_str, samplePh := samplePh,
      ehsPh := ehsPh, decomp_list := decomp_list, mapper := mapper,
      params_external := params_external, weights_file := weights_file,
      mlir_file := mlir_file, vmfb_compiled := false,
      uploaded_blob := uploaded_blob }
  if a.compile_to ≠ "vmfb" then
    ({ base with ret := some module_str }, decomp_list)
  else
    ({ base with
        vmfb_compiled := true
        ret := if a.upload_ir then uploaded_blob else none }, decomp_list)

/-! ### Helper lemmas describing each field of the export result -/

lemma export_samplePh (d : List AtenOp) (m : UnetModelArtifact) (a : ExportArgs) :
    (export_unet_model d m a).1.samplePh =
      (a.batch_size, m.config.in_channels, a.height / 8, a.width / 8) := by
  by_cases hc : a.compile_to = "vmfb" <;> simp [export_unet_model, hc]

lemma export_ehsPh (d : List AtenOp) (m : UnetModelArtifact) (a : ExportArgs) :
    (export_unet_model d m a).1.ehsPh =
      (m.config.layers_per_block, a.max_length, m.config.cross_attention_dim) := by
  by_cases hc : a.compile_to = "vmfb" <;> simp [export_unet_model, hc]

lemma export_decomp_list (d : List AtenOp) (m : UnetModelArtifact) (a : ExportArgs) :
    (export_unet_model d m a).1.decomp_list =
      if a.decomp_attn then d ++ attnDecomps else d := by
  by_cases hc : a.compile_to = "vmfb" <;> simp [export_unet_model, hc]

lemma export_state (d : List AtenOp) (m : UnetModelArtifact) (a : ExportArgs) :
    (export_unet_model d m a).2 =
      if a.decomp_attn then d ++ attnDecomps else d := by
  by_cases hc : a.compile_to = "vmfb" <;> simp [export_unet_model, hc]

lemma export_vmfb_compiled (d : List AtenOp) (m : UnetModelArtifact) (a : ExportArgs) :
    (export_unet_model d m a).1.vmfb_compiled = true ↔ a.compile_to = "vmfb" := by
  by_cases hc : a.compile_to = "vmfb" <;> simp [export_unet_model, hc]

lemma export_ret (d : List AtenOp) (m : UnetModelArtifact) (a : ExportArgs) :
    (export_unet_model d m a).1.ret =
      if a.compile_to = "vmfb" then
        (if a.upload_ir then (export_unet_model d m a).1.uploaded_blob else none)
      else some ((export_unet_model d m a).1.module_str) := by
  by_cases hc : a.compile_to = "vmfb" <;> simp [export_unet_model, hc]

lemma export_uploaded_blob (d : List AtenOp) (m : UnetModelArtifact) (a : ExportArgs) :
    (export_unet_model d m a).1.uploaded_blob =
      if a.upload_ir then
        some ((replaceSep '/' '-' a.hf_model_name ++ "_unet") ++ "/"
          ++ (replaceSep '/' '-' a.hf_model_name ++ "_unet") ++ ".mlir")
      else none := by
  by_cases hc : a.compile_to = "vmfb" <;>
    simp [export_unet_model, uploadToBlobStorage, hc]

lemma export_mapper (d : List AtenOp) (m : UnetModelArtifact) (a : ExportArgs) :
    (export_unet_model d m a).1.mapper =
      (save_external_weights [] m a.external_weights a.external_weight_path).1 := by
  by_cases hc : a.compile_to = "vmfb" <;> simp [export_unet_model, hc]

lemma export_weights_file (d : List AtenOp) (m : UnetModelArtifact) (a : ExportArgs) :
    (export_unet_model d m a).1.weights_file =
      (save_external_weights [] m a.external_weights a.external_weight_path).2 := by
  by_cases hc : a.compile_to = "vmfb" <;> simp [export_unet_model, hc]

lemma export_params_external (d : List AtenOp) (m : UnetModelArtifact) (a : ExportArgs) :
    (export_unet_model d m a).1.params_external = a.external_weights.isSome := by
  by_cases hc : a.compile_to = "vmfb" <;> simp [export_unet_model, hc]

/-! ### Concrete fixtures used by witnesses and counterexamples -/

/-- A tiny concrete network configuration. -/
def cfg0 : UnetConfig := { in_channels := 4, layers_per_block := 2, cross_attention_dim := 7 }

/-- A tiny concrete wrapped model. -/
def m0 : UnetModelArtifact := { config := cfg0, weights := [("w", 1)] }

/-- A tiny concrete initial shared default decomposition list. -/
def d0 : List AtenOp := [AtenOp.other 0]

/-- Concrete export arguments: the source defaults with a small model name. -/
def a0 : ExportArgs := { hf_model_name := "m", batch_size := 1, height := 512, width := 512 }

/-- A concrete underlying network used by the C1 witness: elementwise doubling,
which preserves the batch dimension. -/
def unetW : Tensor1 → Int → Tensor1 → Tensor1 :=
  fun xs _t _e => xs.map (fun v => v * 2)

/-! ### Claim theorems -/

/-- C1: `UnetModel.forward` concatenates two copies of the sample along the
batch dimension, runs the underlying network once on the duplicated batch —
the result depends on the network only through its single value at the
duplicated batch (third conjunct) — splits the network output into an
unconditional half and a text half, and returns
`uncond + guidance_scale * (text - uncond)` elementwise, a tensor whose batch
length equals that of one half of the duplicated batch, i.e. of the sample.
Hypothesis: the underlying network preserves the batch dimension. -/
theorem unet_forward_cfg (unet : Tensor1 → Int → Tensor1 → Tensor1)
    (sample : Tensor1) (timestep : Int) (ehs : Tensor1) (g : Int)
    (hlen : (unet (sample ++ sample) timestep ehs).length =
      (sample ++ sample).length) :
    UnetModel.forward unet sample timestep ehs g =
      List.zipWith (fun u c => u + g * (c - u))
        ((unet (sample ++ sample) timestep ehs).take sample.length)
        ((unet (sample ++ sample) timestep ehs).drop sample.length) ∧
    (UnetModel.forward unet sample timestep ehs g).length = sample.length ∧
    ∀ unet2 : Tensor1 → Int → Tensor1 → Tensor1,
      unet2 (sample ++ sample) timestep ehs = unet (sample ++ sample) timestep ehs →
      UnetModel.forward unet2 sample timestep ehs g =
        UnetModel.forward unet sample timestep ehs g := by
  have h2 : (unet (sample ++ sample) timestep ehs).length =
      sample.length + sample.length := by
    simpa using hlen
  have hidx : ((unet (sample ++ sample) timestep ehs).length + 1) / 2 =
      sample.length := by omega
  refine ⟨?_, ?_, ?_⟩
  · simp [UnetModel.forward, torch_cat2, chunk2, cfgCombine, hidx]
  · simp only [UnetModel.forward, torch_cat2, chunk2, cfgCombine,
      List.length_zipWith, List.length_take, List.length_drop, h2]
    omega
  · intro u2 h
    simp [UnetModel.forward, torch_cat2, h]

/-- Witness for C1: the doubling network on the sample `[1, 2]`. -/
theorem unet_forward_cfg_witness :
    (unetW (([1, 2] : Tensor1) ++ [1, 2]) 0 [5]).length =
      (([1, 2] : Tensor1) ++ [1, 2]).length ∧
    UnetModel.forward unetW [1, 2] 0 [5] 3 =
      List.zipWith (fun u c => u + 3 * (c - u))
        ((unetW (([1, 2] : Tensor1) ++ [1, 2]) 0 [5]).take
          ([1, 2] : Tensor1).length)
        ((unetW (([1, 2] : Tensor1) ++ [1, 2]) 0 [5]).drop
          ([1, 2] : Tensor1).length) :=
  ⟨by decide, (unet_forward_cfg unetW [1, 2] 0 [5] 3 (by decide)).1⟩

/-- C2: for positive batch size, height and width, the sample placeholder
declared for the exported module's entry point has shape
`(batch_size, in_channels, height / 8, width / 8)` with `in_channels` read
from the network's configuration; in particular the configuration
`height = 512, width = 512, batch_size = 1` yields `(1, C, 64, 64)`. -/
theorem sample_placeholder_shape (d : List AtenOp) (m : UnetModelArtifact)
    (a : ExportArgs) (hb : 0 < a.batch_size) (hh : 0 < a.height)
    (hw : 0 < a.width) :
    (export_unet_model d m a).1.samplePh =
      (a.batch_size, m.config.in_channels, a.height / 8, a.width / 8) ∧
    (a.batch_size = 1 → a.height = 512 → a.width = 512 →
      (export_unet_model d m a).1.samplePh = (1, m.config.in_channels, 64, 64)) := by
  refine ⟨export_samplePh d m a, fun hb1 hh5 hw5 => ?_⟩
  rw [export_samplePh d m a, hb1, hh5, hw5]

/-- Witness for C2 at the concrete 512x512 batch-1 configuration. -/
theorem sample_placeholder_shape_witness :
    (0 < a0.batch_size ∧ 0 < a0.height ∧ 0 < a0.width) ∧
    (export_unet_model d0 m0 a0).1.samplePh = (1, m0.config.in_channels, 64, 64) :=
  ⟨⟨by decide, by decide, by decide⟩,
    (sample_placeholder_shape d0 m0 a0 (by decide) (by decide) (by decide)).2
      rfl rfl rfl⟩

/-- C3 counterexample: with `compile_to = "vmfb"` and upload disabled,
`export_unet_model` returns nothing at all — in particular not the textual
module — refuting the claim that the module text is returned to the caller
for every value of `compile_to`. -/
theorem export_return_counterexample :
    (export_unet_model d0 m0 { a0 with compile_to := "vmfb" }).1.ret = none ∧
    (export_unet_model d0 m0 { a0 with compile_to := "vmfb" }).1.ret ≠
      some ((export_unet_model d0 m0
        { a0 with compile_to := "vmfb" }).1.module_str) := by
  decide

/-- C3 (amended): the textual module is always produced (first conjunct: the
`module_str` field is the capture output for every value of `compile_to`),
and it is returned to the caller exactly when `compile_to ≠ "vmfb"`; when
`compile_to = "vmfb"` the function instead returns the uploaded-blob name if
`upload_ir` is set and nothing otherwise (so the command-line entry point can
write it to `<safe-name>-unet.mlir` only in the non-"vmfb" case). -/
theorem export_return_value (d : List AtenOp) (m : UnetModelArtifact)
    (a : ExportArgs) :
    ((export_unet_model d m a).1.module_str =
      capture_module_str m (a.precision = "fp16")
        (a.batch_size, m.config.in_channels, a.height / 8, a.width / 8)
        (m.config.layers_per_block, a.max_length, m.config.cross_attention_dim)
        (if a.decomp_attn then d ++ attnDecomps else d)
        a.external_weights.isSome
        (save_external_weights [] m a.external_weights a.external_weight_path).1
        (if a.compile_to = "linalg" then "INPUT" else "IMPORT")) ∧
    (export_unet_model d m a).1.ret =
      (if a.compile_to = "vmfb" then
        (if a.upload_ir then (export_unet_model d m a).1.uploaded_blob else none)
      else some ((export_unet_model d m a).1.module_str)) := by
  constructor
  · by_cases hc : a.compile_to = "vmfb" <;> simp [export_unet_model, hc]
  · exact export_ret d m a

/-- C4 counterexample: two successive calls with `decomp_attn = true` starting
from the shared default list `d0`.  The first call mutates the shared list
(so the policy construction is not side-effect-free), and the second call's
policy contains the attention decomposition twice. -/
theorem decomp_policy_counterexample :
    (export_unet_model d0 m0 a0).2 ≠ d0 ∧
    ((export_unet_model (export_unet_model d0 m0 a0).2 m0 a0).1.decomp_list).count
        AtenOp.sdpa_flash_default = 2 := by
  decide

/-- C4 (amended): the policy passed to graph capture is the current contents
of the shared default list, extended with the two attention decompositions
when `decomp_attn` is true and unchanged when it is false; but the extension
mutates the shared default list in place (second conjunct), so a second call
with `decomp_attn = true` sees the attention entries already present and its
policy accumulates them twice (third conjunct). -/
theorem decomp_policy (d : List AtenOp) (m : UnetModelArtifact) (a : ExportArgs) :
    ((export_unet_model d m a).1.decomp_list =
      if a.decomp_attn then d ++ attnDecomps else d) ∧
    ((export_unet_model d m a).2 = (export_unet_model d m a).1.decomp_list) ∧
    ((export_unet_model (export_unet_model d m a).2 m a).1.decomp_list =
      if a.decomp_attn then d ++ attnDecomps ++ attnDecomps else d) := by
  refine ⟨export_decomp_list d m a, ?_, ?_⟩
  · rw [export_state, export_decomp_list]
  · rw [export_decomp_list, export_state]
    by_cases hd : a.decomp_attn <;> simp [hd]

/-- C5: the backend compile step (`utils.compile_to_vmfb`) is invoked if and
only if `compile_to = "vmfb"`; in particular it is never invoked for the
"torch" and "linalg" stages and always for the binary stage. -/
theorem vmfb_gating (d : List AtenOp) (m : UnetModelArtifact) (a : ExportArgs) :
    ((export_unet_model d m a).1.vmfb_compiled = true ↔ a.compile_to = "vmfb") ∧
    (export_unet_model d m { a with compile_to := "torch" }).1.vmfb_compiled
      = false ∧
    (export_unet_model d m { a with compile_to := "linalg" }).1.vmfb_compiled
      = false ∧
    (export_unet_model d m { a with compile_to := "vmfb" }).1.vmfb_compiled
      = true := by
  refine ⟨export_vmfb_compiled d m a, ?_, ?_, ?_⟩
  · have h := export_vmfb_compiled d m { a with compile_to := "torch" }
    simpa using h
  · have h := export_vmfb_compiled d m { a with compile_to := "linalg" }
    simpa using h
  · have h := export_vmfb_compiled d m { a with compile_to := "vmfb" }
    simpa using h

/-- C6: when `external_weights` is not set, the weight-name mapping stays
empty, no weights file is written, and the learned parameters are exported
embedded in the module rather than externally. -/
theorem no_external_weights_frame (d : List AtenOp) (m : UnetModelArtifact)
    (a : ExportArgs) (h : a.external_weights = none) :
    (export_unet_model d m a).1.mapper = [] ∧
    (export_unet_model d m a).1.weights_file = none ∧
    (export_unet_model d m a).1.params_external = false := by
  refine ⟨?_, ?_, ?_⟩
  · rw [export_mapper, h]
    rfl
  · rw [export_weights_file, h]
    rfl
  · rw [export_params_external, h]
    rfl

/-- Witness for C6: the default arguments request no external weights. -/
theorem no_external_weights_frame_witness :
    a0.external_weights = none ∧
    ((export_unet_model d0 m0 a0).1.mapper = [] ∧
     (export_unet_model d0 m0 a0).1.weights_file = none ∧
     (export_unet_model d0 m0 a0).1.params_external = false) :=
  ⟨rfl, no_external_weights_frame d0 m0 a0 rfl⟩

/-- C7 counterexample: with `upload_ir = true` and `compile_to = "torch"`, the
upload is attempted (first conjunct), yet the value returned to the caller is
the module text, not the uploaded-blob identifier (second conjunct) —
refuting the claim that the returned value is the uploaded-blob identifier
exactly when `upload_ir` is enabled. -/
theorem upload_gating_counterexample :
    (export_unet_model d0 m0 { a0 with upload_ir := true }).1.uploaded_blob.isSome
      = true ∧
    (export_unet_model d0 m0 { a0 with upload_ir := true }).1.ret ≠
      (export_unet_model d0 m0 { a0 with upload_ir := true }).1.uploaded_blob := by
  decide

/-- C7 (amended): the upload is attempted if and only if `upload_ir` is
enabled, and the uploaded-blob identifier (which is then non-empty) is the
value returned to the caller exactly when `upload_ir` is enabled *and*
`compile_to = "vmfb"`; when `compile_to ≠ "vmfb"` the module text is returned
regardless of `upload_ir`. -/
theorem upload_gating (d : List AtenOp) (m : UnetModelArtifact) (a : ExportArgs) :
    ((export_unet_model d m a).1.uploaded_blob.isSome = a.upload_ir) ∧
    ((export_unet_model d m a).1.uploaded_blob =
      if a.upload_ir then
        some ((replaceSep '/' '-' a.hf_model_name ++ "_unet") ++ "/"
          ++ (replaceSep '/' '-' a.hf_model_name ++ "_unet") ++ ".mlir")
      else none) ∧
    (a.upload_ir = true → a.compile_to = "vmfb" →
      (export_unet_model d m a).1.ret = (export_unet_model d m a).1.uploaded_blob) ∧
    (a.compile_to ≠ "vmfb" →
      (export_unet_model d m a).1.ret =
        some ((export_unet_model d m a).1.module_str)) := by
  refine ⟨?_, export_uploaded_blob d m a, ?_, ?_⟩
  · rw [export_uploaded_blob]
    by_cases hu : a.upload_ir <;> simp [hu]
  · intro hu hc
    rw [export_ret]
    simp [hu, hc]
  · intro hc
    rw [export_ret]
    simp [hc]

/-- Witness for C7: with upload enabled and the binary stage requested, the
returned value is the uploaded-blob identifier. -/
theorem upload_gating_witness :
    (export_unet_model d0 m0
        { a0 with upload_ir := true, compile_to := "vmfb" }).1.ret =
      (export_unet_model d0 m0
        { a0 with upload_ir := true, compile_to := "vmfb" }).1.uploaded_blob :=
  (upload_gating d0 m0 { a0 with upload_ir := true, compile_to := "vmfb" }).2.2.1
    rfl rfl

/-- C8: determinism of capture — for one fixed shared decomposition state, two
runs of `export_unet_model` on identical models and identical configurations
produce identical textual module output. -/
theorem export_deterministic (d : List AtenOp) (m1 m2 : UnetModelArtifact)
    (a1 a2 : ExportArgs) (hm : m1 = m2) (ha : a1 = a2) :
    (export_unet_model d m1 a1).1.module_str =
      (export_unet_model d m2 a2).1.module_str := by
  subst hm
  subst ha
  rfl

/-- Witness for C8 at the concrete fixture configuration. -/
theorem export_deterministic_witness :
    (export_unet_model d0 m0 a0).1.module_str =
      (export_unet_model d0 m0 a0).1.module_str :=
  export_deterministic d0 m0 m0 a0 a0 rfl rfl

/-- C9: the encoder hidden-state placeholder has shape
`(layers_per_block, max_length, cross_attention_dim)` with both outer
components read from the network's configuration; its leading dimension is
the layers-per-block count and does not depend on the requested batch size
(second conjunct). -/
theorem ehs_placeholder_shape (d : List AtenOp) (m : UnetModelArtifact)
    (a : ExportArgs) :
    (export_unet_model d m a).1.ehsPh =
      (m.config.layers_per_block, a.max_length, m.config.cross_attention_dim) ∧
    ∀ n : Nat, (export_unet_model d m { a with batch_size := n }).1.ehsPh =
      (export_unet_model d m a).1.ehsPh := by
  refine ⟨export_ehsPh d m a, fun n => ?_⟩
  rw [export_ehsPh, export_ehsPh]

/-- C10: the `hf_auth_token` value has no effect — `UnetModel.__init__`
accepts it but does not pass it to the pretrained load, and
`export_unet_model` accepts it but never reads it, so any two token values
(including none) give identical constructed models and identical export
results. -/
theorem hf_auth_token_no_effect (from_pretrained : String → UnetModelArtifact)
    (name : String) (t1 t2 : Option String) (d : List AtenOp)
    (m : UnetModelArtifact) (a : ExportArgs) :
    UnetModel.load from_pretrained name t1 =
      UnetModel.load from_pretrained name t2 ∧
    export_unet_model d m { a with hf_auth_token := t1 } =
      export_unet_model d m { a with hf_auth_token := t2 } :=
  ⟨rfl, by cases a; rfl⟩

end SDUnet
